import Mathlib

/-!
# Verification of the ChatArea read-receipt reconciliation engine

A shallow embedding of the client-side state machine in the `ChatArea`
component: the time-ordered message store, the visibility-driven
read-receipt batcher, the live-update channel handlers, and the
`messages_read` reconciliation logic.  Timestamps (`created_at`,
`last_seen_date`) are modelled as the natural numbers produced by
`new Date(x).getTime()`; ids and user ids are natural numbers.
-/

namespace AssessorChat

/-- Message kind discriminant (`type` field): `"message"` (text) or `"file"`. -/
inductive MsgType where
  | message
  | file
deriving DecidableEq

/-- A message record, following the `Message` interface in `shared/api.ts`.
`created_at` holds the parsed timestamp (`new Date(created_at).getTime()`). -/
structure Message where
  id : Nat
  conversation_id : Nat
  attachment_id : Option Nat
  sender_id : Nat
  content : Option String
  file_name : Option String
  file_type : Option String
  description : Option String
  file_size : Option Nat
  created_at : Nat
  type : MsgType
  is_read : Bool
deriving DecidableEq

/-- `readyState` of a `WebSocket` handle. -/
inductive WSReadyState where
  | CONNECTING
  | OPEN
  | CLOSING
  | CLOSED
deriving DecidableEq

/-- Events the client writes to the channel (`wsRef.current.send(...)`). -/
inductive OutEvent where
  | message (id conversation_id sender_id : Nat) (content : String) (timestamp : Nat)
  | file (id conversation_id sender_id : Nat) (attachment_id : Option Nat)
      (file_name file_type description : Option String) (file_size : Option Nat)
      (timestamp : Nat)
  | mark_as_read (last_seen_date : Nat) (user_id : Nat) (conversation_id : Option Nat)
deriving DecidableEq

/-- Metadata of a file picked for upload (the `FileMetadata` interface). -/
structure FileMetadata where
  name : String
  size : Nat
  type : String
  preview : Option String
deriving DecidableEq

/-- The mutable state of one `ChatArea` session: the React state hooks
(`messages`, `newMessage`, `unreadCount`, `firstUnreadId`, `selectedFile`)
and the refs (`pendingLastSeenDateRef`, `lastSentReadDateRef`,
`readTimerRef`, `wsRef`).  `outbound` records the events sent on the
channel and `alerts` the `alert(...)` messages shown to the user. -/
structure ChatState where
  messages : List Message
  newMessage : String
  unreadCount : Nat
  firstUnreadId : Option Nat
  selectedFile : Option FileMetadata
  pendingLastSeenDate : Option Nat
  lastSentReadDate : Option Nat
  readTimer : Bool
  ws : Option WSReadyState
  outbound : List OutEvent
  alerts : List String
deriving DecidableEq

/-- The state of a freshly mounted `ChatArea` (the `useState` initial values;
all refs start `null`). -/
def initialChatState : ChatState :=
  { messages := []
    newMessage := ""
    unreadCount := 0
    firstUnreadId := none
    selectedFile := none
    pendingLastSeenDate := none
    lastSentReadDate := none
    readTimer := false
    ws := none
    outbound := []
    alerts := [] }

/-- `wsRef.current && wsRef.current.readyState === WebSocket.OPEN`. -/
def wsIsOpen : Option WSReadyState → Bool
  | some WSReadyState.OPEN => true
  | _ => false

/-- The predicate `m.is_read === false && m.sender_id !== currentUserId`
used throughout the component to recompute unread state. -/
def isUnreadFromOthers (currentUserId : Nat) (m : Message) : Bool :=
  m.is_read = false && m.sender_id != currentUserId

/-- `updated.filter((m) => m.is_read === false && m.sender_id !== currentUserId).length`. -/
def computeUnreadCount (currentUserId : Nat) (l : List Message) : Nat :=
  (l.filter (isUnreadFromOthers currentUserId)).length

/-- `updated.find((m) => m.is_read === false && m.sender_id !== currentUserId)`,
projected to its `id` (`firstUnread ? firstUnread.id : null`). -/
def computeFirstUnreadId (currentUserId : Nat) (l : List Message) : Option Nat :=
  (l.find? (isUnreadFromOthers currentUserId)).map (fun m => m.id)

/-- The order used by the sort comparator on history load:
`(a, b) => new Date(a.created_at).getTime() - new Date(b.created_at).getTime()`,
i.e. ascending order of parsed `created_at`. -/
def CreatedAtLE (a b : Message) : Prop :=
  a.created_at ≤ b.created_at

instance : DecidableRel CreatedAtLE :=
  fun a b => inferInstanceAs (Decidable (a.created_at ≤ b.created_at))

instance : IsTotal Message CreatedAtLE :=
  ⟨fun a b => Nat.le_total a.created_at b.created_at⟩

instance : IsTrans Message CreatedAtLE :=
  ⟨fun _ _ _ => Nat.le_trans⟩

/-- `{ ...m, is_read: true }` applied to every entry of `readed_messages`. -/
def tagRead (m : Message) : Message := { m with is_read := true }

/-- `{ ...m, is_read: false }` applied to every entry of `not_readed_messages`. -/
def tagUnread (m : Message) : Message := { m with is_read := false }

/-- The `loadMessages` success path (lines 264-314): tag `readed_messages`
read and `not_readed_messages` unread, concatenate, sort ascending by
`created_at` with a stable sort (JavaScript `Array.prototype.sort` is
stable, and a stable sort over a total preorder is unique, so we use the
stable `List.insertionSort`), compute the unread count from the
other-authored unread messages, find the first unread-from-others
message in the sorted list, and replace the store contents. -/
def applyLoadResult (currentUserId : Nat) (readed not_readed : List Message)
    (s : ChatState) : ChatState :=
  let readMessages := readed.map tagRead
  let allUnreadMessages := not_readed.map tagUnread
  let unreadMessages := allUnreadMessages.filter (fun m => m.sender_id != currentUserId)
  let allMessages := (readMessages ++ allUnreadMessages).insertionSort CreatedAtLE
  { s with
    messages := allMessages
    unreadCount := unreadMessages.length
    firstUnreadId := computeFirstUnreadId currentUserId allMessages }

/-- One `IntersectionObserver` entry, with the `data-*` attributes of the
observed element; `createdAt = none` models a missing/empty
`data-created-at` attribute. -/
structure ObserverEntry where
  isIntersecting : Bool
  createdAt : Option Nat
  isUnread : Bool
  fromOthers : Bool
deriving DecidableEq

/-- The body of the `IntersectionObserver` callback for one entry
(lines 148-164): when an unread other-authored message becomes visible,
max-merge its `created_at` into `pendingLastSeenDateRef` and (re)start
the debounce timer (`scheduleReadReceipts`, which clears any pending
timer and arms a fresh one). -/
def observerCallbackEntry (e : ObserverEntry) (s : ChatState) : ChatState :=
  if e.isIntersecting && e.isUnread && e.fromOthers then
    let s1 :=
      match e.createdAt with
      | some tNew =>
          match s.pendingLastSeenDate with
          | some tOld =>
              if tNew > tOld then { s with pendingLastSeenDate := some tNew } else s
          | none => { s with pendingLastSeenDate := some tNew }
      | none => s
    { s1 with readTimer := true }
  else s

/-- The per-message optimistic update of the flush (lines 204-211): an
unread incoming message at or before the cutoff flips to read. -/
def flushMarkOne (currentUserId lastSeen : Nat) (msg : Message) : Message :=
  if msg.sender_id != currentUserId && msg.created_at ≤ lastSeen &&
      msg.is_read = false then
    { msg with is_read := true }
  else msg

/-- `sendReadReceipts` (lines 181-223): no-op unless the channel is open
and a pending cursor exists; otherwise record the flushed timestamp in
`lastSentReadDateRef`, emit one `mark_as_read` event, clear the pending
cursor, and optimistically mark incoming messages up to the cutoff as
read, recomputing the unread count and boundary. -/
def sendReadReceipts (currentUserId : Nat) (conversationId : Option Nat)
    (s : ChatState) : ChatState :=
  if wsIsOpen s.ws then
    match s.pendingLastSeenDate with
    | none => s
    | some lastSeen =>
        let updated := s.messages.map (flushMarkOne currentUserId lastSeen)
        { s with
          lastSentReadDate := some lastSeen
          outbound := s.outbound ++ [OutEvent.mark_as_read lastSeen currentUserId conversationId]
          pendingLastSeenDate := none
          messages := updated
          unreadCount := computeUnreadCount currentUserId updated
          firstUnreadId := computeFirstUnreadId currentUserId updated }
  else s

/-- `isSelfAckByTimestamp` (line 448): the inbound `last_seen_date` equals
the most recently flushed value recorded in `lastSentReadDateRef`. -/
def isSelfAckByTimestamp (s : ChatState) (lastSeen : Nat) : Bool :=
  s.lastSentReadDate == some lastSeen

/-- `isPeerReader` (lines 454-456): when a reader-identity field is
present, the event is a peer action iff the identity names a user other
than the current user; when absent, it is a peer action iff the
timestamp does not match the last flushed value. -/
def isPeerReaderOf (s : ChatState) (lastSeen : Nat) (readerId : Option Nat)
    (currentUserId : Nat) : Bool :=
  match readerId with
  | some rid => rid != currentUserId
  | none => !(isSelfAckByTimestamp s lastSeen)

/-- The per-message update of the `messages_read` branch (lines 459-471):
a message past the cutoff or already read is untouched; otherwise the
peer direction flips the current user's own message to read and the
self direction flips an other-authored message to read. -/
def markOne (currentUserId cutoff : Nat) (isPeerReader : Bool)
    (msg : Message) : Message :=
  if msg.created_at > cutoff || msg.is_read then msg
  else if isPeerReader then
    if msg.sender_id == currentUserId then { msg with is_read := true } else msg
  else
    if msg.sender_id != currentUserId then { msg with is_read := true } else msg

/-- The map over the store performed by the `messages_read` branch. -/
def markReadUpTo (currentUserId cutoff : Nat) (isPeerReader : Bool)
    (l : List Message) : List Message :=
  l.map (markOne currentUserId cutoff isPeerReader)

/-- Apply one direction of the `messages_read` reconciliation to the
store and recompute `unreadCount` and `firstUnreadId` (lines 458-478). -/
def applyMarkRead (currentUserId cutoff : Nat) (isPeerReader : Bool)
    (s : ChatState) : ChatState :=
  let updated := markReadUpTo currentUserId cutoff isPeerReader s.messages
  { s with
    messages := updated
    unreadCount := computeUnreadCount currentUserId updated
    firstUnreadId := computeFirstUnreadId currentUserId updated }

/-- The `messages_read` branch of the channel `onmessage` handler
(lines 429-478): classify the event as self-echo or peer action, consume
the self-ack token when the timestamp matches, and mark the matching
direction read up to the cutoff. -/
def handleMessagesRead (currentUserId lastSeen : Nat) (readerId : Option Nat)
    (s : ChatState) : ChatState :=
  let isPeerReader := isPeerReaderOf s lastSeen readerId currentUserId
  let s1 :=
    if isSelfAckByTimestamp s lastSeen then { s with lastSentReadDate := none } else s
  applyMarkRead currentUserId lastSeen isPeerReader s1

/-- The payload of an inbound `message` event (`data.message`); `id = none`
models a non-numeric id (`Number.parseInt` returning `NaN`), replaced by
`Date.now()` at handling time. -/
structure TextPayload where
  id : Option Nat
  conversation_id : Nat
  sender_id : Nat
  content : Option String
  timestamp : Nat
deriving DecidableEq

/-- The `message` branch of the channel `onmessage` handler (lines
366-393): construct the text message (initially unread), append it to
the store, and recompute the unread count and boundary. -/
def handleTextMessage (currentUserId now : Nat) (p : TextPayload)
    (s : ChatState) : ChatState :=
  let newMsg : Message :=
    { id := p.id.getD now
      conversation_id := p.conversation_id
      sender_id := p.sender_id
      content := p.content
      type := MsgType.message
      attachment_id := none
      file_name := none
      file_type := none
      description := none
      file_size := none
      created_at := p.timestamp
      is_read := false }
  let updated := s.messages ++ [newMsg]
  { s with
    messages := updated
    unreadCount := computeUnreadCount currentUserId updated
    firstUnreadId := computeFirstUnreadId currentUserId updated }

/-- The payload of an inbound `file` event (`data.message ?? data.metadata`). -/
structure FilePayload where
  id : Option Nat
  conversation_id : Nat
  sender_id : Nat
  attachment_id : Option Nat
  file_name : Option String
  file_type : Option String
  description : Option String
  file_size : Option Nat
  timestamp : Nat
deriving DecidableEq

/-- The `file` branch of the channel `onmessage` handler (lines 394-428):
construct the file message (initially unread, `content` null), append it
to the store, and recompute the unread count and boundary. -/
def handleFileMessage (currentUserId now : Nat) (p : FilePayload)
    (s : ChatState) : ChatState :=
  let newMsg : Message :=
    { id := p.id.getD now
      conversation_id := p.conversation_id
      sender_id := p.sender_id
      content := none
      type := MsgType.file
      attachment_id := p.attachment_id
      file_name := p.file_name
      file_type := p.file_type
      description := p.description
      file_size := p.file_size
      created_at := p.timestamp
      is_read := false }
  let updated := s.messages ++ [newMsg]
  { s with
    messages := updated
    unreadCount := computeUnreadCount currentUserId updated
    firstUnreadId := computeFirstUnreadId currentUserId updated }

/-- `String.prototype.trim()`: strip leading and trailing whitespace.
(Modelled over the character list so that it evaluates inside the
kernel; `String.trim` in the library is defined by well-founded
recursion over byte positions.) -/
def jsTrim (s : String) : String :=
  String.mk
    (((s.data.dropWhile Char.isWhitespace).reverse.dropWhile Char.isWhitespace).reverse)

/-- Outcome of a `sendMessage` call. -/
inductive SendResult where
  | emptyInput
  | channelNotReady
  | noConversationId
  | sent
deriving DecidableEq

/-- The alert shown when `sendMessage` finds the channel not open. -/
def connectionLostAlert : String :=
  "Chat connection lost or not ready. Please wait a moment and try again."

/-- The optimistic message appended by a successful `sendMessage`
(lines 530-543); `now` is `Date.now()`, used both as the provisional id
and (via `toISOString`) as the timestamp. -/
def optimisticMessageOf (currentUserId conversationId now : Nat)
    (content : String) : Message :=
  { id := now
    conversation_id := conversationId
    sender_id := currentUserId
    content := some content
    type := MsgType.message
    attachment_id := none
    file_name := none
    file_type := none
    description := none
    file_size := none
    created_at := now
    is_read := false }

/-- `sendMessage` (lines 493-551): empty trimmed input returns silently;
a channel that is not open raises an alert and aborts, leaving the draft
in place; a missing conversation id aborts; otherwise one `message`
event is emitted, the draft is cleared, and the optimistic message is
appended to the store (without touching `unreadCount`/`firstUnreadId`). -/
def sendMessage (currentUserId : Nat) (conversationId : Option Nat) (now : Nat)
    (s : ChatState) : ChatState × SendResult :=
  if jsTrim s.newMessage = "" then (s, SendResult.emptyInput)
  else if !wsIsOpen s.ws then
    ({ s with alerts := s.alerts ++ [connectionLostAlert] }, SendResult.channelNotReady)
  else
    match conversationId with
    | none => (s, SendResult.noConversationId)
    | some convId =>
        ({ s with
            outbound := s.outbound ++
              [OutEvent.message now convId currentUserId s.newMessage now]
            newMessage := ""
            messages := s.messages ++
              [optimisticMessageOf currentUserId convId now s.newMessage] },
         SendResult.sent)

/-- Outcome of the `handleFileUpload` guard section. -/
inductive FileSendResult where
  | skipped
  | channelNotReady
  | proceed
deriving DecidableEq

/-- The alert shown when `handleFileUpload` finds the channel not open. -/
def fileNotReadyAlert : String :=
  "Chat connection not ready. Please wait and try again."

/-- The guard section of `handleFileUpload` (lines 593-608): missing
file, conversation id, or selection returns silently; a channel that is
not open raises an alert and aborts, leaving the selection in place;
otherwise the upload proceeds (`proceed` — the network upload and its
continuation are the backend interaction, outside this subsystem). -/
def handleFileUpload (hasFile : Bool) (conversationId : Option Nat)
    (s : ChatState) : ChatState × FileSendResult :=
  if !hasFile || conversationId == none || s.selectedFile == none then
    (s, FileSendResult.skipped)
  else if !wsIsOpen s.ws then
    ({ s with alerts := s.alerts ++ [fileNotReadyAlert] }, FileSendResult.channelNotReady)
  else (s, FileSendResult.proceed)

/-- The `cleanup` closure of the conversation effect (lines 74-90): close
the channel, disconnect the observer, clear the debounce timer and the
pending cursor.  (`lastSentReadDateRef` is deliberately not cleared by
the source.) -/
def effectCleanup (s : ChatState) : ChatState :=
  { s with
    ws := none
    readTimer := false
    pendingLastSeenDate := none }

/-- An event of the conversation-switch / history-fetch interleaving. -/
inductive LoadEvent where
  | switchConversation (conv : Option Nat)
  | fetchResolve (fetchedConv : Nat) (readed not_readed : List Message)
deriving DecidableEq

/-- One step of the conversation-change effect and fetch resolution.
`switchConversation` models the effect body for a changed
`chat.conversationId` (lines 92-114): the previous effect's `cleanup`
runs, then `setMessages([])` resets the store and a fetch for the new
conversation starts.  `fetchResolve` models the resolution of the fetch
started for `fetchedConv`: the source applies the result unconditionally
(`loadMessages` lines 264-314 contain no check that `fetchedConv` is
still the active conversation). -/
def loadStep (currentUserId : Nat) : LoadEvent → ChatState → ChatState
  | LoadEvent.switchConversation _, s => { effectCleanup s with messages := [] }
  | LoadEvent.fetchResolve _ readed not_readed, s =>
      applyLoadResult currentUserId readed not_readed s

/-- Run a sequence of conversation-switch / fetch-resolution events. -/
def runLoadTrace (currentUserId : Nat) (events : List LoadEvent)
    (s : ChatState) : ChatState :=
  events.foldl (fun st e => loadStep currentUserId e st) s

/-- A store-mutating operation of the engine: history load, live text or
file append, optimistic send, read-receipt flush, or inbound
`messages_read` reconciliation. -/
inductive Op where
  | load (readed not_readed : List Message)
  | recvText (now : Nat) (p : TextPayload)
  | recvFile (now : Nat) (p : FilePayload)
  | optimisticSend (conversationId : Option Nat) (now : Nat)
  | flush (conversationId : Option Nat)
  | recvRead (lastSeen : Nat) (readerId : Option Nat)
deriving DecidableEq

/-- Apply one operation to the session state. -/
def applyOp (currentUserId : Nat) : Op → ChatState → ChatState
  | Op.load r u, s => applyLoadResult currentUserId r u s
  | Op.recvText now p, s => handleTextMessage currentUserId now p s
  | Op.recvFile now p, s => handleFileMessage currentUserId now p s
  | Op.optimisticSend conv now, s => (sendMessage currentUserId conv now s).1
  | Op.flush conv, s => sendReadReceipts currentUserId conv s
  | Op.recvRead t rid, s => handleMessagesRead currentUserId t rid s

/-- The operations the spec's monotonicity property ranges over: the
read-receipt flush and the two directions of `messages_read`
reconciliation. -/
inductive ReadOp where
  | flush (conversationId : Option Nat)
  | messagesRead (lastSeen : Nat) (readerId : Option Nat)
deriving DecidableEq

/-- Apply one read-marking operation to the session state. -/
def applyReadOp (currentUserId : Nat) : ReadOp → ChatState → ChatState
  | ReadOp.flush conv, s => sendReadReceipts currentUserId conv s
  | ReadOp.messagesRead t rid, s => handleMessagesRead currentUserId t rid s

/-- An event of the read-receipt batcher: a qualifying visibility event
(an unread, other-authored message element intersecting the viewport,
carrying its `created_at`) or the debounce-timer expiry, which fires
`sendReadReceipts`. -/
inductive BatchEvent where
  | visible (t : Nat)
  | expire (conversationId : Option Nat)
deriving DecidableEq

/-- One step of the batcher. -/
def batchStep (currentUserId : Nat) : BatchEvent → ChatState → ChatState
  | BatchEvent.visible t, s =>
      observerCallbackEntry
        { isIntersecting := true, createdAt := some t, isUnread := true,
          fromOthers := true } s
  | BatchEvent.expire conv, s =>
      sendReadReceipts currentUserId conv { s with readTimer := false }

/-- Run a sequence of batcher events. -/
def runBatch (currentUserId : Nat) (events : List BatchEvent)
    (s : ChatState) : ChatState :=
  events.foldl (fun st e => batchStep currentUserId e st) s

/-- The max-merge performed on the pending cursor by a qualifying
visibility event (lines 155-160): a missing cursor takes the new
timestamp, an existing cursor is replaced only by a strictly newer one. -/
def mergePending (o : Option Nat) (t : Nat) : Nat :=
  match o with
  | none => t
  | some old => if t > old then t else old

/-- The pending cursor after a sequence of qualifying visibility events. -/
def pendingAfter (ts : List Nat) (o : Option Nat) : Option Nat :=
  ts.foldl (fun acc t => some (mergePending acc t)) o

/-- The derived-state invariant of the spec: the displayed `unreadCount`
and `firstUnreadId` agree with the store contents. -/
def UnreadInv (currentUserId : Nat) (s : ChatState) : Prop :=
  s.unreadCount = computeUnreadCount currentUserId s.messages ∧
  s.firstUnreadId = computeFirstUnreadId currentUserId s.messages

instance (currentUserId : Nat) (s : ChatState) :
    Decidable (UnreadInv currentUserId s) := by
  unfold UnreadInv
  infer_instance

/-! ## Concrete fixtures -/

/-- An unread message received from user 2 (current user is 1). -/
def mRecv : Message :=
  { id := 10, conversation_id := 1, attachment_id := none, sender_id := 2
    content := some "hi", file_name := none, file_type := none
    description := none, file_size := none, created_at := 5
    type := MsgType.message, is_read := false }

/-- An unread message sent by the current user 1. -/
def mSent : Message :=
  { id := 11, conversation_id := 1, attachment_id := none, sender_id := 1
    content := some "yo", file_name := none, file_type := none
    description := none, file_size := none, created_at := 6
    type := MsgType.message, is_read := false }

/-- A session of user 1 holding one received and one sent unread message,
with an open channel, just after a flush recorded timestamp 7. -/
def conflictState : ChatState :=
  { initialChatState with
    messages := [mRecv, mSent]
    unreadCount := 1
    firstUnreadId := some 10
    ws := some WSReadyState.OPEN
    lastSentReadDate := some 7 }

/-- A message belonging to conversation 1. -/
def msgConvA : Message :=
  { id := 100, conversation_id := 1, attachment_id := none, sender_id := 2
    content := some "hello from conversation 1", file_name := none
    file_type := none, description := none, file_size := none
    created_at := 10, type := MsgType.message, is_read := false }

/-- A message belonging to conversation 2. -/
def msgConvB : Message :=
  { id := 200, conversation_id := 2, attachment_id := none, sender_id := 3
    content := some "hello from conversation 2", file_name := none
    file_type := none, description := none, file_size := none
    created_at := 20, type := MsgType.message, is_read := false }

/-- A selected file awaiting upload. -/
def sampleFile : FileMetadata :=
  { name := "photo.png", size := 2048, type := "image/png", preview := none }

/-- A session of user 1 with a non-empty draft and a selected file while
the channel handle is absent (not open). -/
def notReadyState : ChatState :=
  { initialChatState with
    messages := [mRecv, mSent]
    unreadCount := 1
    firstUnreadId := some 10
    newMessage := "hello"
    selectedFile := some sampleFile
    ws := none }

/-- A session of user 1 with an open channel, an empty pending cursor and
a non-empty draft. -/
def openIdleState : ChatState :=
  { initialChatState with
    messages := [mRecv, mSent]
    unreadCount := 1
    firstUnreadId := some 10
    newMessage := "hello"
    ws := some WSReadyState.OPEN }

/-! ## Claims -/

/-- Claim C1, counterexample: with the self-ack token holding timestamp 7
and an inbound `messages_read` carrying both `user_id = 2` (another user)
and `last_seen_date = 7` (matching the last flush), the code classifies
the event as a peer action — identity wins, not the timestamp — and
marks the current user's sent message (id 11) read while leaving the
received message (id 10) unread, contrary to the claim. -/
theorem c1_counterexample :
    conflictState.lastSentReadDate = some 7 ∧
    isSelfAckByTimestamp conflictState 7 = true ∧
    isPeerReaderOf conflictState 7 (some 2) 1 = true ∧
    ((handleMessagesRead 1 7 (some 2) conflictState).messages.map
        (fun m => (m.id, m.sender_id, m.is_read))) = [(10, 2, false), (11, 1, true)] ∧
    (handleMessagesRead 1 7 (some 2) conflictState).unreadCount = 1 := by
  refine ⟨rfl, rfl, rfl, ?_, rfl⟩
  rfl

/-- Claim C1, amended: when an inbound `messages_read` carries a reader
identity naming a user other than the current user while its
`last_seen_date` equals the most recently flushed timestamp, identity
takes priority: the event is classified as a peer action (marking the
current user's sent messages read, not the received ones), and the
self-ack token is nonetheless consumed. -/
theorem c1_identity_takes_priority (currentUserId T rid : Nat) (s : ChatState)
    (hts : s.lastSentReadDate = some T) (hrid : rid ≠ currentUserId) :
    isPeerReaderOf s T (some rid) currentUserId = true ∧
    handleMessagesRead currentUserId T (some rid) s =
      applyMarkRead currentUserId T true { s with lastSentReadDate := none } := by
  have hb : (rid != currentUserId) = true := by simp [hrid]
  constructor
  · simp [isPeerReaderOf, hb]
  · simp [handleMessagesRead, isPeerReaderOf, isSelfAckByTimestamp, hts, hb]

/-- Claim C1, witness for the amended theorem at a concrete input. -/
theorem c1_identity_takes_priority_witness :
    isPeerReaderOf conflictState 7 (some 2) 1 = true ∧
    handleMessagesRead 1 7 (some 2) conflictState =
      applyMarkRead 1 7 true { conflictState with lastSentReadDate := none } :=
  c1_identity_takes_priority 1 7 2 conflictState (by decide) (by decide)

/-- Claim C2: the source applies a resolved history fetch without any
staleness check, so a fetch for conversation 1 that resolves after the
user has switched to conversation 2 (and after conversation 2's own load
completed) overwrites the store with conversation 1's messages — the
store does not reflect only conversation 2's data. -/
theorem c2_stale_fetch_applied :
    (runLoadTrace 1
        [LoadEvent.switchConversation (some 1),
         LoadEvent.switchConversation (some 2),
         LoadEvent.fetchResolve 2 [msgConvB] [],
         LoadEvent.fetchResolve 1 [msgConvA] []]
        initialChatState).messages = [tagRead msgConvA] ∧
    (tagRead msgConvA).conversation_id ≠ 2 := by
  refine ⟨?_, by decide⟩
  rfl

/-- Claim C4: the self-echo token is single-use.  After a flush records
timestamp `T`, a first inbound `messages_read` with `last_seen_date = T`
and no reader identity is classified as a self-echo (marking the
received direction) and clears the token; a second identical event,
without an intervening flush, is classified as a peer action (marking
the sent direction). -/
theorem c4_self_echo_token_single_use (currentUserId T : Nat) (s : ChatState)
    (h : s.lastSentReadDate = some T) :
    isPeerReaderOf s T none currentUserId = false ∧
    handleMessagesRead currentUserId T none s =
      applyMarkRead currentUserId T false { s with lastSentReadDate := none } ∧
    (handleMessagesRead currentUserId T none s).lastSentReadDate = none ∧
    isPeerReaderOf (handleMessagesRead currentUserId T none s) T none currentUserId = true ∧
    handleMessagesRead currentUserId T none (handleMessagesRead currentUserId T none s) =
      applyMarkRead currentUserId T true (handleMessagesRead currentUserId T none s) := by
  have h1 : isPeerReaderOf s T none currentUserId = false := by
    simp [isPeerReaderOf, isSelfAckByTimestamp, h]
  have h2 : handleMessagesRead currentUserId T none s =
      applyMarkRead currentUserId T false { s with lastSentReadDate := none } := by
    simp [handleMessagesRead, isPeerReaderOf, isSelfAckByTimestamp, h]
  have h3 : (handleMessagesRead currentUserId T none s).lastSentReadDate = none := by
    rw [h2]
    simp [applyMarkRead]
  have h4 : isPeerReaderOf (handleMessagesRead currentUserId T none s) T none
      currentUserId = true := by
    simp [isPeerReaderOf, isSelfAckByTimestamp, h3]
  have hgen : ∀ s2 : ChatState, s2.lastSentReadDate = none →
      handleMessagesRead currentUserId T none s2 =
        applyMarkRead currentUserId T true s2 := by
    intro s2 h3'
    simp [handleMessagesRead, isPeerReaderOf, isSelfAckByTimestamp, h3']
  exact ⟨h1, h2, h3, h4, hgen _ h3⟩

/-- Claim C4, witness: the token single-use property at a concrete state
whose last flush recorded timestamp 7. -/
theorem c4_self_echo_token_single_use_witness :
    isPeerReaderOf conflictState 7 none 1 = false ∧
    handleMessagesRead 1 7 none conflictState =
      applyMarkRead 1 7 false { conflictState with lastSentReadDate := none } ∧
    (handleMessagesRead 1 7 none conflictState).lastSentReadDate = none ∧
    isPeerReaderOf (handleMessagesRead 1 7 none conflictState) 7 none 1 = true ∧
    handleMessagesRead 1 7 none (handleMessagesRead 1 7 none conflictState) =
      applyMarkRead 1 7 true (handleMessagesRead 1 7 none conflictState) :=
  c4_self_echo_token_single_use 1 7 conflictState (by decide)

/-- Pointwise idempotence of the `messages_read` per-message update. -/
theorem markOne_idem (currentUserId cutoff : Nat) (p : Bool) (m : Message) :
    markOne currentUserId cutoff p (markOne currentUserId cutoff p m) =
      markOne currentUserId cutoff p m := by
  have hbase : ∀ m' : Message, m'.is_read = true →
      markOne currentUserId cutoff p m' = m' := by
    intro m' h
    simp [markOne, h]
  by_cases h1 : m.is_read = true
  · rw [hbase m h1, hbase m h1]
  · replace h1 : m.is_read = false := by simpa using h1
    by_cases h2 : m.created_at > cutoff
    · have he : markOne currentUserId cutoff p m = m := by simp [markOne, h2]
      rw [he, he]
    · cases p with
      | true =>
        by_cases h3 : m.sender_id = currentUserId
        · have he : markOne currentUserId cutoff true m = { m with is_read := true } := by
            simp [markOne, h1, h2, h3]
          rw [he, hbase _ rfl]
        · have he : markOne currentUserId cutoff true m = m := by
            simp [markOne, h1, h2, h3]
          rw [he, he]
      | false =>
        by_cases h3 : m.sender_id = currentUserId
        · have he : markOne currentUserId cutoff false m = m := by
            simp [markOne, h1, h2, h3]
          rw [he, he]
        · have he : markOne currentUserId cutoff false m = { m with is_read := true } := by
            simp [markOne, h1, h2, h3]
          rw [he, hbase _ rfl]

/-- Idempotence of the store map of the `messages_read` branch. -/
theorem markReadUpTo_idem (currentUserId cutoff : Nat) (p : Bool) (l : List Message) :
    markReadUpTo currentUserId cutoff p (markReadUpTo currentUserId cutoff p l) =
      markReadUpTo currentUserId cutoff p l := by
  unfold markReadUpTo
  rw [List.map_map]
  exact List.map_congr_left fun m _ => markOne_idem currentUserId cutoff p m

/-- Claim C8: applying the `messages_read` reconciliation twice with the
same `last_seen_date` and the same direction yields the same store state
as applying it once — already-read messages are untouched by the second
application. -/
theorem c8_markRead_idempotent (currentUserId cutoff : Nat) (isPeer : Bool)
    (s : ChatState) :
    applyMarkRead currentUserId cutoff isPeer (applyMarkRead currentUserId cutoff isPeer s) =
      applyMarkRead currentUserId cutoff isPeer s := by
  simp [applyMarkRead, markReadUpTo_idem]

/-- Relate a list to its image under a map, pointwise. -/
theorem forall₂_map_self {R : Message → Message → Prop} (f : Message → Message)
    (l : List Message) (h : ∀ a ∈ l, R a (f a)) : List.Forall₂ R l (l.map f) := by
  induction l with
  | nil => exact List.Forall₂.nil
  | cons a l ih =>
      exact List.Forall₂.cons (h a (by simp)) (ih fun a ha => h a (by simp [ha]))

/-- The per-message update of the `messages_read` branch either leaves a
message unchanged or flips an unread message to read. -/
theorem markOne_monotone (currentUserId cutoff : Nat) (p : Bool) (a : Message) :
    markOne currentUserId cutoff p a = a ∨
      (a.is_read = false ∧
        markOne currentUserId cutoff p a = { a with is_read := true }) := by
  by_cases h1 : a.is_read = true
  · left
    simp [markOne, h1]
  · replace h1 : a.is_read = false := by simpa using h1
    by_cases h2 : a.created_at > cutoff
    · left
      simp [markOne, h2]
    · cases p with
      | true =>
        by_cases h3 : a.sender_id = currentUserId
        · exact Or.inr ⟨h1, by simp [markOne, h1, h2, h3]⟩
        · left
          simp [markOne, h1, h2, h3]
      | false =>
        by_cases h3 : a.sender_id = currentUserId
        · left
          simp [markOne, h1, h2, h3]
        · exact Or.inr ⟨h1, by simp [markOne, h1, h2, h3]⟩

/-- The per-message optimistic update of the flush either leaves a
message unchanged or flips an unread message to read. -/
theorem flushMarkOne_monotone (currentUserId lastSeen : Nat) (a : Message) :
    flushMarkOne currentUserId lastSeen a = a ∨
      (a.is_read = false ∧
        flushMarkOne currentUserId lastSeen a = { a with is_read := true }) := by
  by_cases h1 : a.is_read = true
  · left
    simp [flushMarkOne, h1]
  · replace h1 : a.is_read = false := by simpa using h1
    by_cases h2 : a.created_at ≤ lastSeen
    · by_cases h3 : a.sender_id = currentUserId
      · left
        simp [flushMarkOne, h3]
      · exact Or.inr ⟨h1, by simp [flushMarkOne, h1, h2, h3]⟩
    · left
      simp [flushMarkOne, h2]

/-- Claim C6: across the read-marking mutations (read-receipt flush,
self-echo reconciliation, peer-read reconciliation), each message of the
store is either untouched or flips from unread to read — `is_read` never
transitions from `true` to `false`. -/
theorem c6_isRead_monotonic (currentUserId : Nat) (op : ReadOp) (s : ChatState) :
    List.Forall₂
      (fun a b => b = a ∨ (a.is_read = false ∧ b = { a with is_read := true }))
      s.messages (applyReadOp currentUserId op s).messages := by
  cases op with
  | flush conv =>
    simp only [applyReadOp, sendReadReceipts]
    split
    · split
      · exact List.forall₂_same.mpr fun a _ => Or.inl rfl
      · exact forall₂_map_self _ _ fun a _ => flushMarkOne_monotone _ _ a
    · exact List.forall₂_same.mpr fun a _ => Or.inl rfl
  | messagesRead t rid =>
    have key : ∀ s1 : ChatState, s1.messages = s.messages →
        List.Forall₂
          (fun a b => b = a ∨ (a.is_read = false ∧ b = { a with is_read := true }))
          s.messages
          (applyMarkRead currentUserId t
            (isPeerReaderOf s t rid currentUserId) s1).messages := by
      intro s1 hmsg
      simp only [applyMarkRead, markReadUpTo, hmsg]
      exact forall₂_map_self _ _ fun a _ => markOne_monotone _ _ _ a
    simp only [applyReadOp, handleMessagesRead]
    split
    · exact key _ rfl
    · exact key _ rfl

/-- A qualifying visibility event max-merges the pending cursor and arms
the debounce timer, leaving everything else unchanged. -/
theorem batchStep_visible_eq (currentUserId t : Nat) (s : ChatState) :
    batchStep currentUserId (BatchEvent.visible t) s =
      { s with
        pendingLastSeenDate := some (mergePending s.pendingLastSeenDate t)
        readTimer := true } := by
  simp only [batchStep, observerCallbackEntry, mergePending]
  cases h : s.pendingLastSeenDate with
  | none => simp
  | some old =>
    by_cases h2 : t > old
    · simp [h2]
    · simp only [h2, if_neg, Bool.true_and, if_false]
      rw [← h]
      simp

/-- Running a sequence of qualifying visibility events folds the
max-merge over the pending cursor, arms the timer, and touches nothing
else. -/
theorem runBatch_visibles_eq (currentUserId : Nat) (ts : List Nat) (s : ChatState) :
    runBatch currentUserId (ts.map BatchEvent.visible) s =
      { s with
        pendingLastSeenDate := pendingAfter ts s.pendingLastSeenDate
        readTimer := s.readTimer || !ts.isEmpty } := by
  induction ts generalizing s with
  | nil => simp [runBatch, pendingAfter]
  | cons t ts ih =>
    show runBatch currentUserId (ts.map BatchEvent.visible)
        (batchStep currentUserId (BatchEvent.visible t) s) = _
    rw [batchStep_visible_eq, ih]
    simp [pendingAfter]

/-- Max-merging into an existing cursor takes the maximum. -/
theorem mergePending_some (old t : Nat) :
    mergePending (some old) t = max old t := by
  simp only [mergePending]
  rw [max_def]
  by_cases h : t > old
  · rw [if_pos h, if_pos (Nat.le_of_lt h)]
  · rw [if_neg h]
    by_cases h2 : old ≤ t
    · rw [if_pos h2]
      omega
    · rw [if_neg h2]

/-- Folding the max-merge over a populated cursor computes a running
maximum. -/
theorem pendingAfter_some (ts : List Nat) (a : Nat) :
    pendingAfter ts (some a) = some (ts.foldl max a) := by
  induction ts generalizing a with
  | nil => rfl
  | cons t ts ih =>
    show pendingAfter ts (some (mergePending (some a) t)) = _
    rw [mergePending_some]
    exact ih (max a t)

/-- A left fold of `max` lands on its seed or on a list element. -/
theorem foldl_max_mem (a : Nat) (ts : List Nat) :
    ts.foldl max a = a ∨ ts.foldl max a ∈ ts := by
  induction ts generalizing a with
  | nil => exact Or.inl rfl
  | cons t ts ih =>
    rw [List.foldl_cons]
    rcases ih (max a t) with h | h
    · rw [h]
      rcases max_choice a t with hm | hm
      · exact Or.inl hm
      · exact Or.inr (by rw [hm]; exact List.mem_cons_self t ts)
    · exact Or.inr (List.mem_cons_of_mem t h)

/-- A left fold of `max` bounds its seed and every list element. -/
theorem foldl_max_bound (a : Nat) (ts : List Nat) :
    a ≤ ts.foldl max a ∧ ∀ x ∈ ts, x ≤ ts.foldl max a := by
  induction ts generalizing a with
  | nil => exact ⟨Nat.le_refl a, by simp⟩
  | cons t ts ih =>
    obtain ⟨h1, h2⟩ := ih (max a t)
    rw [List.foldl_cons]
    refine ⟨le_trans (le_max_left a t) h1, ?_⟩
    intro x hx
    rcases List.mem_cons.mp hx with hx | hx
    · rw [hx]
      exact le_trans (le_max_right a t) h1
    · exact h2 x hx

/-- Claim C3: starting from an open channel and an empty pending cursor,
any non-empty burst of qualifying visibility events followed by the
debounce-timer expiry produces exactly one outbound `mark_as_read`
event, whose `last_seen_date` is the maximum of the scheduled timestamps
(a member of the burst bounding all of them — never an intermediate
value), and the flush clears the pending cursor. -/
theorem c3_debounce_single_flight (currentUserId : Nat) (conv : Option Nat)
    (ts : List Nat) (hne : ts ≠ []) (s : ChatState)
    (hws : s.ws = some WSReadyState.OPEN) (hp : s.pendingLastSeenDate = none) :
    ∃ M,
      (runBatch currentUserId
          (ts.map BatchEvent.visible ++ [BatchEvent.expire conv]) s).outbound =
        s.outbound ++ [OutEvent.mark_as_read M currentUserId conv] ∧
      (runBatch currentUserId
          (ts.map BatchEvent.visible ++ [BatchEvent.expire conv]) s).pendingLastSeenDate =
        none ∧
      M ∈ ts ∧ ∀ x ∈ ts, x ≤ M := by
  cases ts with
  | nil => exact absurd rfl hne
  | cons t rest =>
    have hsplit :
        runBatch currentUserId
            ((t :: rest).map BatchEvent.visible ++ [BatchEvent.expire conv]) s =
          batchStep currentUserId (BatchEvent.expire conv)
            (runBatch currentUserId ((t :: rest).map BatchEvent.visible) s) := by
      simp [runBatch, List.foldl_append]
    have hpend : pendingAfter (t :: rest) none = some (rest.foldl max t) := by
      show pendingAfter rest (some (mergePending none t)) = _
      exact pendingAfter_some rest t
    set M := rest.foldl max t with hM
    have hvis :
        runBatch currentUserId ((t :: rest).map BatchEvent.visible) s =
          { s with pendingLastSeenDate := some M, readTimer := true } := by
      rw [runBatch_visibles_eq, hp, hpend]
      simp
    refine ⟨M, ?_, ?_, ?_, ?_⟩
    · rw [hsplit, hvis]
      simp [batchStep, sendReadReceipts, wsIsOpen, hws]
    · rw [hsplit, hvis]
      simp [batchStep, sendReadReceipts, wsIsOpen, hws]
    · rcases foldl_max_mem t rest with h | h
      · exact h ▸ List.mem_cons_self t rest
      · exact List.mem_cons_of_mem t h
    · intro x hx
      obtain ⟨h1, h2⟩ := foldl_max_bound t rest
      rcases List.mem_cons.mp hx with hx | hx
      · exact hx ▸ h1
      · exact h2 x hx

/-- Claim C3, witness: a burst of three visibility events with timestamps
3, 9, 6 on an open idle channel flushes once with the maximum, 9. -/
theorem c3_debounce_single_flight_witness :
    ∃ M,
      (runBatch 1
          ([3, 9, 6].map BatchEvent.visible ++ [BatchEvent.expire (some 1)])
          openIdleState).outbound =
        openIdleState.outbound ++ [OutEvent.mark_as_read M 1 (some 1)] ∧
      (runBatch 1
          ([3, 9, 6].map BatchEvent.visible ++ [BatchEvent.expire (some 1)])
          openIdleState).pendingLastSeenDate = none ∧
      M ∈ [3, 9, 6] ∧ ∀ x ∈ [3, 9, 6], x ≤ M :=
  c3_debounce_single_flight 1 (some 1) [3, 9, 6] (by decide) openIdleState
    (by decide) (by decide)

/-- Stability of the load sort: filtering the sorted output at any fixed
`created_at` key recovers the corresponding slice of the input, in input
order. -/
theorem insertionSort_filter_key (l : List Message) (k : Nat) :
    (l.insertionSort CreatedAtLE).filter (fun m => m.created_at == k) =
      l.filter (fun m => m.created_at == k) := by
  have hmemk : ∀ m ∈ l.filter (fun m => m.created_at == k), m.created_at = k := by
    intro m hm
    have := List.of_mem_filter hm
    simpa using this
  have hpair : (l.filter (fun m => m.created_at == k)).Pairwise CreatedAtLE := by
    apply List.pairwise_of_forall_mem_list
    intro a ha b hb
    show a.created_at ≤ b.created_at
    rw [hmemk a ha, hmemk b hb]
  have hsub : List.Sublist (l.filter (fun m => m.created_at == k))
      (l.insertionSort CreatedAtLE) :=
    List.sublist_insertionSort hpair (List.filter_sublist l)
  have hall : ∀ a ∈ l.filter (fun m => m.created_at == k), (a.created_at == k) = true := by
    intro a ha
    exact beq_iff_eq.mpr (hmemk a ha)
  have hsub2 : List.Sublist (l.filter (fun m => m.created_at == k))
      ((l.insertionSort CreatedAtLE).filter (fun m => m.created_at == k)) := by
    have := List.Sublist.filter (fun m => m.created_at == k) hsub
    rwa [List.filter_eq_self.mpr hall] at this
  have hperm : List.Perm
      ((l.insertionSort CreatedAtLE).filter (fun m => m.created_at == k))
      (l.filter (fun m => m.created_at == k)) :=
    (List.perm_insertionSort CreatedAtLE l).filter (fun m => m.created_at == k)
  exact (hsub2.eq_of_length hperm.length_eq.symm).symm

/-- Claim C7: the history load replaces the store contents with a
permutation of the tagged concatenation (`readed_messages` tagged read,
then `not_readed_messages` tagged unread), sorted ascending by
`created_at`; the sort is stable (filtering at any fixed timestamp
recovers the input slice in input order); and the result does not depend
on the prior store contents. -/
theorem c7_load_sorted_stable (currentUserId : Nat) (readed not_readed : List Message)
    (s sPrior : ChatState) :
    ((applyLoadResult currentUserId readed not_readed s).messages).Perm
        (readed.map tagRead ++ not_readed.map tagUnread) ∧
    ((applyLoadResult currentUserId readed not_readed s).messages).Pairwise CreatedAtLE ∧
    (∀ k : Nat,
      ((applyLoadResult currentUserId readed not_readed s).messages).filter
          (fun m => m.created_at == k) =
        (readed.map tagRead ++ not_readed.map tagUnread).filter
          (fun m => m.created_at == k)) ∧
    (applyLoadResult currentUserId readed not_readed sPrior).messages =
      (applyLoadResult currentUserId readed not_readed s).messages := by
  have hm : (applyLoadResult currentUserId readed not_readed s).messages =
      (readed.map tagRead ++ not_readed.map tagUnread).insertionSort CreatedAtLE := rfl
  refine ⟨?_, ?_, ?_, rfl⟩
  · rw [hm]
    exact List.perm_insertionSort CreatedAtLE _
  · rw [hm]
    exact List.sorted_insertionSort CreatedAtLE _
  · intro k
    rw [hm]
    exact insertionSort_filter_key _ k

/-- Appending a message that is not unread-from-others leaves the
recomputed unread count unchanged. -/
theorem computeUnreadCount_append_own (currentUserId : Nat) (l : List Message)
    (m : Message) (hm : isUnreadFromOthers currentUserId m = false) :
    computeUnreadCount currentUserId (l ++ [m]) =
      computeUnreadCount currentUserId l := by
  unfold computeUnreadCount
  rw [List.filter_append]
  simp [List.filter_cons, hm]

/-- Appending a message that is not unread-from-others leaves the
recomputed unread boundary unchanged. -/
theorem computeFirstUnreadId_append_own (currentUserId : Nat) (l : List Message)
    (m : Message) (hm : isUnreadFromOthers currentUserId m = false) :
    computeFirstUnreadId currentUserId (l ++ [m]) =
      computeFirstUnreadId currentUserId l := by
  unfold computeFirstUnreadId
  rw [List.find?_append]
  have hnone : List.find? (isUnreadFromOthers currentUserId) [m] = none := by
    simp [List.find?_cons, hm]
  rw [hnone]
  cases List.find? (isUnreadFromOthers currentUserId) l <;> simp

/-- The unread count stored by the load (the length of the
other-authored slice of `not_readed_messages`) equals the count
recomputed over the sorted store contents. -/
theorem load_count_eq (currentUserId : Nat) (readed not_readed : List Message) :
    computeUnreadCount currentUserId
        ((readed.map tagRead ++ not_readed.map tagUnread).insertionSort CreatedAtLE) =
      ((not_readed.map tagUnread).filter
          (fun m => m.sender_id != currentUserId)).length := by
  unfold computeUnreadCount
  have hperm :=
    (List.perm_insertionSort CreatedAtLE
        (readed.map tagRead ++ not_readed.map tagUnread)).filter
      (isUnreadFromOthers currentUserId)
  rw [hperm.length_eq, List.filter_append]
  have h1 : (readed.map tagRead).filter (isUnreadFromOthers currentUserId) = [] := by
    rw [List.filter_eq_nil_iff]
    intro a ha
    obtain ⟨x, _, rfl⟩ := List.mem_map.mp ha
    simp [isUnreadFromOthers, tagRead]
  have h2 : (not_readed.map tagUnread).filter (isUnreadFromOthers currentUserId) =
      (not_readed.map tagUnread).filter (fun m => m.sender_id != currentUserId) := by
    apply List.filter_congr
    intro a ha
    obtain ⟨x, _, rfl⟩ := List.mem_map.mp ha
    simp [isUnreadFromOthers, tagUnread]
  rw [h1, h2]
  simp

/-- Claim C5: every store-mutating operation — history load, live text or
file append, optimistic send, read-receipt flush, `messages_read`
reconciliation — preserves the invariant that the displayed
`unreadCount` equals the count of unread other-authored messages in the
store and `firstUnreadId` is the id of the earliest such message in
store order (or none). -/
theorem c5_unread_state_correct (currentUserId : Nat) (op : Op) (s : ChatState)
    (h : UnreadInv currentUserId s) :
    UnreadInv currentUserId (applyOp currentUserId op s) := by
  cases op with
  | load readed not_readed =>
    exact ⟨(load_count_eq currentUserId readed not_readed).symm, rfl⟩
  | recvText now p => exact ⟨rfl, rfl⟩
  | recvFile now p => exact ⟨rfl, rfl⟩
  | recvRead t rid => exact ⟨rfl, rfl⟩
  | flush conv =>
    simp only [applyOp, sendReadReceipts]
    split
    · split
      · exact h
      · exact ⟨rfl, rfl⟩
    · exact h
  | optimisticSend conv now =>
    simp only [applyOp, sendMessage]
    split
    · exact h
    · split
      · exact h
      · split
        · exact h
        · rename_i convId
          have hown : isUnreadFromOthers currentUserId
              (optimisticMessageOf currentUserId convId now s.newMessage) = false := by
            simp [isUnreadFromOthers, optimisticMessageOf]
          constructor
          · show s.unreadCount = computeUnreadCount currentUserId
              (s.messages ++ [optimisticMessageOf currentUserId convId now s.newMessage])
            rw [computeUnreadCount_append_own _ _ _ hown]
            exact h.1
          · show s.firstUnreadId = computeFirstUnreadId currentUserId
              (s.messages ++ [optimisticMessageOf currentUserId convId now s.newMessage])
            rw [computeFirstUnreadId_append_own _ _ _ hown]
            exact h.2

/-- Claim C5, witness: the invariant holds in the initial state and is
preserved by a concrete history load. -/
theorem c5_unread_state_correct_witness :
    UnreadInv 1 initialChatState ∧
    UnreadInv 1 (applyOp 1 (Op.load [mRecv] [mSent]) initialChatState) :=
  ⟨by decide,
   c5_unread_state_correct 1 (Op.load [mRecv] [mSent]) initialChatState (by decide)⟩

/-- Claim C9: while the channel is not open, a text send with a
non-empty trimmed draft and a file send with a selected file both abort
with a user-visible alert (`channelNotReady`), emit no outbound event,
and leave the draft (resp. the file selection) in place. -/
theorem c9_send_blocked_when_channel_not_ready (currentUserId now : Nat)
    (conversationId : Option Nat) (s : ChatState) (hws : wsIsOpen s.ws = false) :
    (jsTrim s.newMessage ≠ "" →
      sendMessage currentUserId conversationId now s =
        ({ s with alerts := s.alerts ++ [connectionLostAlert] },
          SendResult.channelNotReady) ∧
      (sendMessage currentUserId conversationId now s).1.outbound = s.outbound ∧
      (sendMessage currentUserId conversationId now s).1.newMessage = s.newMessage) ∧
    (conversationId.isSome = true → s.selectedFile.isSome = true →
      handleFileUpload true conversationId s =
        ({ s with alerts := s.alerts ++ [fileNotReadyAlert] },
          FileSendResult.channelNotReady) ∧
      (handleFileUpload true conversationId s).1.outbound = s.outbound ∧
      (handleFileUpload true conversationId s).1.selectedFile = s.selectedFile) := by
  constructor
  · intro htrim
    have he : sendMessage currentUserId conversationId now s =
        ({ s with alerts := s.alerts ++ [connectionLostAlert] },
          SendResult.channelNotReady) := by
      simp [sendMessage, htrim, hws]
    exact ⟨he, by rw [he], by rw [he]⟩
  · intro hconv hfile
    obtain ⟨c, hc⟩ := Option.isSome_iff_exists.mp hconv
    obtain ⟨f, hf⟩ := Option.isSome_iff_exists.mp hfile
    have he : handleFileUpload true conversationId s =
        ({ s with alerts := s.alerts ++ [fileNotReadyAlert] },
          FileSendResult.channelNotReady) := by
      simp [handleFileUpload, hc, hf, hws]
    exact ⟨he, by rw [he], by rw [he]⟩

/-- Claim C9, witness: both send paths blocked at a concrete
disconnected session. -/
theorem c9_send_blocked_witness :
    sendMessage 1 (some 1) 42 notReadyState =
      ({ notReadyState with alerts := notReadyState.alerts ++ [connectionLostAlert] },
        SendResult.channelNotReady) ∧
    handleFileUpload true (some 1) notReadyState =
      ({ notReadyState with alerts := notReadyState.alerts ++ [fileNotReadyAlert] },
        FileSendResult.channelNotReady) :=
  ⟨((c9_send_blocked_when_channel_not_ready 1 42 (some 1) notReadyState
      (by decide)).1 (by decide)).1,
   ((c9_send_blocked_when_channel_not_ready 1 42 (some 1) notReadyState
      (by decide)).2 (by decide) (by decide)).1⟩

/-- Claim C10: with the channel open and a non-empty trimmed draft, a
text send succeeds, appends exactly one message at the tail of the
store — authored by the current user, unread — emits exactly one
outbound `message` event, and leaves both the displayed and the
recomputed `unreadCount`/`firstUnreadId` unchanged. -/
theorem c10_optimistic_send_frame (currentUserId convId now : Nat) (s : ChatState)
    (hmsg : jsTrim s.newMessage ≠ "") (hws : wsIsOpen s.ws = true) :
    (sendMessage currentUserId (some convId) now s).2 = SendResult.sent ∧
    (sendMessage currentUserId (some convId) now s).1.messages =
      s.messages ++ [optimisticMessageOf currentUserId convId now s.newMessage] ∧
    (optimisticMessageOf currentUserId convId now s.newMessage).sender_id =
      currentUserId ∧
    (optimisticMessageOf currentUserId convId now s.newMessage).is_read = false ∧
    (sendMessage currentUserId (some convId) now s).1.unreadCount = s.unreadCount ∧
    (sendMessage currentUserId (some convId) now s).1.firstUnreadId = s.firstUnreadId ∧
    computeUnreadCount currentUserId
        (sendMessage currentUserId (some convId) now s).1.messages =
      computeUnreadCount currentUserId s.messages ∧
    computeFirstUnreadId currentUserId
        (sendMessage currentUserId (some convId) now s).1.messages =
      computeFirstUnreadId currentUserId s.messages ∧
    (sendMessage currentUserId (some convId) now s).1.outbound =
      s.outbound ++ [OutEvent.message now convId currentUserId s.newMessage now] := by
  have he : sendMessage currentUserId (some convId) now s =
      ({ s with
          outbound := s.outbound ++
            [OutEvent.message now convId currentUserId s.newMessage now]
          newMessage := ""
          messages := s.messages ++
            [optimisticMessageOf currentUserId convId now s.newMessage] },
        SendResult.sent) := by
    simp [sendMessage, hmsg, hws]
  have hown : isUnreadFromOthers currentUserId
      (optimisticMessageOf currentUserId convId now s.newMessage) = false := by
    simp [isUnreadFromOthers, optimisticMessageOf]
  rw [he]
  refine ⟨rfl, rfl, rfl, rfl, rfl, rfl, ?_, ?_, rfl⟩
  · exact computeUnreadCount_append_own _ _ _ hown
  · exact computeFirstUnreadId_append_own _ _ _ hown

/-- Claim C10, witness: a concrete successful text send on an open
channel. -/
theorem c10_optimistic_send_frame_witness :
    (sendMessage 1 (some 1) 42 openIdleState).2 = SendResult.sent ∧
    (sendMessage 1 (some 1) 42 openIdleState).1.messages =
      openIdleState.messages ++ [optimisticMessageOf 1 1 42 openIdleState.newMessage] ∧
    (optimisticMessageOf 1 1 42 openIdleState.newMessage).sender_id = 1 ∧
    (optimisticMessageOf 1 1 42 openIdleState.newMessage).is_read = false ∧
    (sendMessage 1 (some 1) 42 openIdleState).1.unreadCount =
      openIdleState.unreadCount ∧
    (sendMessage 1 (some 1) 42 openIdleState).1.firstUnreadId =
      openIdleState.firstUnreadId ∧
    computeUnreadCount 1 (sendMessage 1 (some 1) 42 openIdleState).1.messages =
      computeUnreadCount 1 openIdleState.messages ∧
    computeFirstUnreadId 1 (sendMessage 1 (some 1) 42 openIdleState).1.messages =
      computeFirstUnreadId 1 openIdleState.messages ∧
    (sendMessage 1 (some 1) 42 openIdleState).1.outbound =
      openIdleState.outbound ++ [OutEvent.message 42 1 1 openIdleState.newMessage 42] :=
  c10_optimistic_send_frame 1 1 42 openIdleState (by decide) (by decide)

end AssessorChat
